import Mathlib

/-!
Shallow embedding of `src/main.py` (YouTube playlist downloader) together
with theorems checking the natural-language specification against it.

External collaborators (the HTTP client, BeautifulSoup, `json.loads`,
`yt_dlp`, the remote archive served at the fixed URL) are modelled as
explicit inputs/oracles; everything the repository's own code does is
translated function by function.
-/

/-- Model of a Python value produced by `json.load`/`json.loads`.
Numbers are modelled as integers (no claim involves fractional values). -/
inductive JSON where
  | null : JSON
  | bool : Bool → JSON
  | num : Int → JSON
  | str : String → JSON
  | arr : List JSON → JSON
  | obj : List (String × JSON) → JSON

/-- Python truthiness (`if x:`) for the modelled values. -/
def JSON.truthy : JSON → Bool
  | .null => false
  | .bool b => b
  | .num n => n != 0
  | .str s => s != ""
  | .arr xs => !xs.isEmpty
  | .obj kvs => !kvs.isEmpty

/-- Python `str(x)` as used in f-strings. Container rendering is
abbreviated in the model; no theorem relies on the container cases. -/
def JSON.pyStr : JSON → String
  | .null => "None"
  | .bool true => "True"
  | .bool false => "False"
  | .num n => toString n
  | .str s => s
  | .arr _ => "[...]"
  | .obj _ => "\x7b...\x7d"

/-- Python `d.get(k, default)`: succeeds on a dict, raising
`AttributeError` on any other receiver (the uncaught-exception channel is
the `Except` error). -/
def JSON.getD (j : JSON) (k : String) (d : JSON) : Except String JSON :=
  match j with
  | .obj kvs => .ok ((kvs.lookup k).getD d)
  | _ => .error "AttributeError"

/-- Python `d[k]` subscription: `KeyError` when the key is absent,
`TypeError` when the receiver is not a dict. -/
def pyIndex (j : JSON) (k : String) : Except String JSON :=
  match j with
  | .obj kvs =>
    match kvs.lookup k with
    | some v => .ok v
    | none => .error ("KeyError: " ++ k)
  | _ => .error "TypeError"

/-- Python iteration (`for x in v:`): lists yield elements, dicts yield
keys, strings yield one-character strings, other values raise `TypeError`. -/
def pyIter : JSON → Except String (List JSON)
  | .arr xs => .ok xs
  | .obj kvs => .ok (kvs.map (fun kv => .str kv.1))
  | .str s => .ok (s.toList.map (fun c => .str (String.mk [c])))
  | _ => .error "TypeError"

/-- Total dictionary access used on the specification side: the stored
value when the receiver is a dict holding the key, the default otherwise. -/
def lookupOr (j : JSON) (k : String) (d : JSON) : JSON :=
  match j with
  | .obj kvs => (kvs.lookup k).getD d
  | _ => d

/-- Test for dict values. -/
def isObjB : JSON → Bool
  | .obj _ => true
  | _ => false

/-- Test for string values. -/
def isStrVal : JSON → Bool
  | .str _ => true
  | _ => false

/-- Success test for an `Except` result (models "the call did not raise"). -/
def exIsOk : Except String α → Bool
  | .ok _ => true
  | .error _ => false

/-- Value of a successful `Except` result, empty-list fallback otherwise. -/
def exOk : Except String (List α) → List α
  | .ok xs => xs
  | .error _ => []

/-!
LinkExtractor (`extract_playlist_links`, src/main.py lines 64-117).

The page fetch, the HTML parse into script tags and `json.loads` are
external collaborators; the script-tag scan, the regular-expression
search `var ytInitialData = (\x7b.*?\x7d);`, the fixed navigation path
and the per-item loop are translated from the source.
-/

/-- Outcome of `requests.get(url)` followed by `raise_for_status()`:
either a `RequestException` or a page whose script tags carry the given
texts (`none` models a tag whose `.string` is `None`). -/
inductive HttpResult where
  | failure : HttpResult
  | success : List (Option String) → HttpResult

/-- Resolved (title, watch URL) pair; `title` keeps the raw value read
from the scraped data (a string for well-formed records). -/
structure VideoEntry where
  title : JSON
  link : String

/-- Tests whether `pat` is an initial segment of `cs`. -/
def startsWith : List Char → List Char → Bool
  | [], _ => true
  | _ :: _, [] => false
  | p :: ps, c :: cs => p == c && startsWith ps cs

/-- Python substring containment (`pat in s`). -/
def containsSub (pat : List Char) : List Char → Bool
  | [] => startsWith pat []
  | c :: rest => startsWith pat (c :: rest) || containsSub pat rest

/-- Marker substring looked for in each script tag. -/
def marker : List Char := "ytInitialData".toList

/-- Literal part of the regular expression up to and including the
opening brace of capture group 1. -/
def ytPat : List Char := "var ytInitialData = \x7b".toList

/-- Lazy body of the capture group: the characters after the opening
brace up to the first terminator `\x7d;`, failing on a newline (`.` does
not match newlines) or on end of input. -/
def lazyCloseAux : List Char → Option (List Char)
  | '\x7d' :: ';' :: _ => some []
  | '\n' :: _ => none
  | c :: rest => (lazyCloseAux rest).map (fun xs => c :: xs)
  | [] => none

/-- Leftmost-then-shortest semantics of
`re.search(r'var ytInitialData = (\x7b.*?\x7d);', s)`, returning capture
group 1: scan start positions left to right; where the literal prefix
matches, close the group at the first following `\x7d;`; if the group
cannot be closed there, continue scanning. -/
def reSearch : List Char → Option (List Char)
  | [] => none
  | c :: rest =>
    if startsWith ytPat (c :: rest) then
      match lazyCloseAux ((c :: rest).drop ytPat.length) with
      | some inner => some ('\x7b' :: inner ++ ['\x7d'])
      | none => reSearch rest
    else reSearch rest

/-- Script-tag scan of src/main.py lines 79-84: walk the tags in order;
a tag whose text contains the marker is searched with the pattern; on a
match the loop breaks with the captured blob, otherwise the loop
continues with the next tag. -/
def findPlaylistData : List (Option String) → Option String
  | [] => none
  | none :: rest => findPlaylistData rest
  | some t :: rest =>
    if containsSub marker t.toList then
      match reSearch t.toList with
      | some blob => some (String.mk blob)
      | none => findPlaylistData rest
    else findPlaylistData rest

/-- Navigation path of src/main.py lines 91-97 followed by the `for`
iteration over the result. -/
def getPlaylistItems (data : JSON) : Except String (List JSON) :=
  match data.getD "contents" (.obj []) with
  | .error err => .error err
  | .ok j1 =>
  match j1.getD "twoColumnWatchNextResults" (.obj []) with
  | .error err => .error err
  | .ok j2 =>
  match j2.getD "playlist" (.obj []) with
  | .error err => .error err
  | .ok j3 =>
  match j3.getD "playlist" (.obj []) with
  | .error err => .error err
  | .ok j4 =>
  match j4.getD "contents" (.arr []) with
  | .error err => .error err
  | .ok j5 => pyIter j5

/-- Body of the per-item loop (src/main.py lines 100-108): read the
title with its placeholder default, read the video identifier, and build
an entry only when the identifier is truthy. -/
def processItem (item : JSON) : Except String (Option VideoEntry) :=
  match item.getD "playlistPanelVideoRenderer" (.obj []) with
  | .error err => .error err
  | .ok vr =>
  match vr.getD "title" (.obj []) with
  | .error err => .error err
  | .ok tObj =>
  match tObj.getD "simpleText" (.str "No Title") with
  | .error err => .error err
  | .ok title =>
  match vr.getD "navigationEndpoint" (.obj []) with
  | .error err => .error err
  | .ok nav =>
  match nav.getD "watchEndpoint" (.obj []) with
  | .error err => .error err
  | .ok wend =>
  match wend.getD "videoId" (.str "") with
  | .error err => .error err
  | .ok vid =>
    if vid.truthy then
      .ok (some ⟨title, "https://www.youtube.com/watch?v=" ++ vid.pyStr⟩)
    else
      .ok none

/-- Accumulating loop over the playlist items (src/main.py lines
99-110); an exception in any iteration propagates. -/
def buildVideos : List JSON → Except String (List VideoEntry)
  | [] => .ok []
  | item :: rest =>
    match processItem item with
    | .error err => .error err
    | .ok none => buildVideos rest
    | .ok (some v) =>
      match buildVideos rest with
      | .error err => .error err
      | .ok vs => .ok (v :: vs)

/-- Whole extractor: `try` body with the `except` clauses for
`RequestException` and `JSONDecodeError` returning the empty list; any
other exception propagates to the caller. `loads` is the external
`json.loads` (`none` models a `JSONDecodeError`). -/
def extract_playlist_links (loads : String → Option JSON) (resp : HttpResult) :
    Except String (List VideoEntry) :=
  match resp with
  | .failure => .ok []
  | .success scripts =>
    match findPlaylistData scripts with
    | none => .ok []
    | some blob =>
      match loads blob with
      | none => .ok []
      | some data =>
        match getPlaylistItems data with
        | .error err => .error err
        | .ok items => buildVideos items

/-!
Specification-side companions for the extractor, written from the
claims' wording: per-record accessors with safe defaults, a well-formed
record predicate, and the per-script blob function.
-/

/-- Shape constraint on one dictionary field: the receiver is a dict and
the stored value (when the key is present) satisfies `ok`. -/
def wfField (j : JSON) (k : String) (ok : JSON → Bool) : Bool :=
  match j with
  | .obj kvs =>
    match kvs.lookup k with
    | none => true
    | some v => ok v
  | _ => false

/-- Well-formed playlist item record: every dictionary the item loop
dereferences is a dict when present, and the video identifier, when
present, is a string. -/
def WFItem (item : JSON) : Bool :=
  wfField item "playlistPanelVideoRenderer" (fun vr =>
    wfField vr "title" isObjB &&
    wfField vr "navigationEndpoint" (fun nav =>
      wfField nav "watchEndpoint" (fun wend =>
        wfField wend "videoId" isStrVal)))

/-- Title of a record per the claim: the nested title field, with the
placeholder text when absent. -/
def itemTitle (item : JSON) : JSON :=
  lookupOr (lookupOr (lookupOr item "playlistPanelVideoRenderer" (.obj []))
    "title" (.obj [])) "simpleText" (.str "No Title")

/-- Video identifier of a record per the claim, empty string when absent. -/
def itemVid (item : JSON) : JSON :=
  lookupOr (lookupOr (lookupOr (lookupOr item "playlistPanelVideoRenderer" (.obj []))
    "navigationEndpoint" (.obj [])) "watchEndpoint" (.obj [])) "videoId" (.str "")

/-- Entry produced for one record per the claim: an entry exactly when
the video identifier is a non-empty string, with the title defaulting to
the placeholder text. -/
def specEntry (item : JSON) : Option VideoEntry :=
  match itemVid item with
  | .str vid =>
    if vid == "" then none
    else some ⟨itemTitle item, "https://www.youtube.com/watch?v=" ++ vid⟩
  | _ => none

/-- Record has a non-empty (string) video identifier. -/
def hasVid (item : JSON) : Bool :=
  match itemVid item with
  | .str vid => vid != ""
  | _ => false

/-- Blob contributed by a single script tag: present exactly when the
tag has text containing the marker on which the pattern also matches. -/
def scriptBlob : Option String → Option String
  | none => none
  | some t =>
    if containsSub marker t.toList then (reSearch t.toList).map String.mk
    else none

/-- Some key of the given path is missing, all receivers up to that
point being dicts. -/
def pathMissing (j : JSON) : List String → Bool
  | [] => false
  | k :: ks =>
    match j with
    | .obj kvs =>
      match kvs.lookup k with
      | none => true
      | some v => pathMissing v ks
    | _ => false

/-- Fixed navigation path of src/main.py lines 91-97. -/
def navKeys : List String :=
  ["contents", "twoColumnWatchNextResults", "playlist", "playlist", "contents"]

/-!
BinaryProvisioner (`download_ffmpeg`, src/main.py lines 11-45).

The state is a flat file list (paths as component lists) plus a count of
network fetches; the remote archive served at the fixed URL is an
external input given by its member list. Writing the zip, `extractall`,
`os.remove` and the `os.walk` search are translated from the source;
`os.walk` visits the root first and then each subdirectory.
-/

/-- Filesystem path split into components. -/
abbrev FPath := List String

/-- Files present on disk plus the number of network fetches performed. -/
structure World where
  files : List FPath
  netCalls : Nat
deriving DecidableEq

/-- Member file list of the remote zip archive (external fixed content). -/
structure Archive where
  members : List FPath

/-- Creation of a file: idempotent insertion keeping first positions. -/
def insertPath (p : FPath) (fs : List FPath) : List FPath :=
  if p ∈ fs then fs else fs ++ [p]

/-- Name of the immediate subdirectory of `d` through which `p` passes,
when `p` lies strictly below such a subdirectory. -/
def childName (d : FPath) (p : FPath) : Option String :=
  if p.take d.length = d ∧ d.length + 1 < p.length then p.get? d.length else none

/-- Immediate subdirectories of `d` evidenced by the file list. -/
def subdirNames (d : FPath) (fs : List FPath) : List String :=
  (fs.filterMap (childName d)).dedup

/-- Names of the files sitting directly in directory `d`. -/
def filesInDir (d : FPath) (fs : List FPath) : List String :=
  fs.filterMap (fun p => if p.dropLast = d then p.getLast? else none)

/-- Longest path length, a bound on the directory depth. -/
def maxLen (fs : List FPath) : Nat :=
  fs.foldr (fun p m => max p.length m) 0

/-- Top-down directory traversal of `os.walk`: the root first, then each
subdirectory recursively. -/
def walkDirs : Nat → FPath → List FPath → List FPath
  | 0, _, _ => []
  | fuel + 1, d, fs =>
    d :: ((subdirNames d fs).map (fun n => walkDirs fuel (d ++ [n]) fs)).flatten

/-- Search of src/main.py lines 40-43: first directory in walk order
containing a file named `ffmpeg.exe` or `ffmpeg`. -/
def walkFind (folder : String) (fs : List FPath) : Option FPath :=
  (walkDirs (maxLen fs + 1) [folder] fs).find?
    (fun d => (filesInDir d fs).contains "ffmpeg.exe" ||
              (filesInDir d fs).contains "ffmpeg")

/-- Translation of `download_ffmpeg` (src/main.py lines 11-45): fast
path when `ffmpeg_folder/ffmpeg.exe` exists; otherwise fetch the archive
(one network call), write the zip, extract every member under the
folder, delete the zip, and return the first directory the walk finds
holding the binary, or `none`. -/
def download_ffmpeg (arc : Archive) (ffmpeg_folder : String) (w : World) :
    Option FPath × World :=
  let ffmpeg_exe_path : FPath := [ffmpeg_folder, "ffmpeg.exe"]
  if ffmpeg_exe_path ∈ w.files then
    (some [ffmpeg_folder], w)
  else
    let w1 : World := ⟨insertPath ["ffmpeg.zip"] w.files, w.netCalls + 1⟩
    let w2 : World :=
      ⟨arc.members.foldl (fun fs m => insertPath (ffmpeg_folder :: m) fs) w1.files,
       w1.netCalls⟩
    let w3 : World := ⟨w2.files.filter (fun p => p != ["ffmpeg.zip"]), w2.netCalls⟩
    match walkFind ffmpeg_folder w3.files with
    | some root => (some root, w3)
    | none => (none, w3)

/-!
MediaFetcher (`download_audio` src/main.py lines 120-147,
`download_video` lines 150-174).

The external `yt_dlp` call is the oracle `dl`; the state records the
existing output directories, the console log, the entries for which the
downloader was invoked, and the entries whose download completed.
-/

/-- Observable state threaded through the fetch loops. -/
structure FetchState where
  dirs : List String
  log : List String
  calls : List VideoEntry
  completed : List VideoEntry

/-- Directory creation guard shared by both fetch functions
(src/main.py lines 124-125 and 154-155). -/
def mkdirStep (folder : String) (st : FetchState) : FetchState :=
  if folder ∈ st.dirs then st else { st with dirs := st.dirs ++ [folder] }

/-- Body of one loop iteration (src/main.py lines 127-147 resp.
157-174): announce the entry, invoke the downloader, and either record
completion or catch the exception and log it with the entry's title. -/
def stepFetch (kind : String) (dl : VideoEntry → Except String Unit)
    (st : FetchState) (v : VideoEntry) : FetchState :=
  let st1 : FetchState :=
    { st with
      log := st.log ++ ["Downloading " ++ kind ++ ": " ++ v.title.pyStr ++ " from " ++ v.link],
      calls := st.calls ++ [v] }
  match dl v with
  | .ok _ =>
    { st1 with
      log := st1.log ++ ["Downloaded " ++ kind ++ ": " ++ v.title.pyStr],
      completed := st1.completed ++ [v] }
  | .error e =>
    { st1 with
      log := st1.log ++ ["Error downloading " ++ kind ++ " " ++ v.title.pyStr ++ ": " ++ e] }

/-- Translation of `download_audio` (src/main.py lines 120-147). The
`ffmpeg_path` argument is forwarded to the external tool and does not
influence the modelled state. -/
def download_audio (dl : VideoEntry → Except String Unit) (videos : List VideoEntry)
    (ffmpeg_path : FPath) (download_folder : String) (st : FetchState) : FetchState :=
  videos.foldl (stepFetch "audio" dl) (mkdirStep download_folder st)

/-- Translation of `download_video` (src/main.py lines 150-174). -/
def download_video (dl : VideoEntry → Except String Unit) (videos : List VideoEntry)
    (ffmpeg_path : FPath) (download_folder : String) (st : FetchState) : FetchState :=
  videos.foldl (stepFetch "video" dl) (mkdirStep download_folder st)

/-!
ConfigReader (`read_json_file`, src/main.py lines 47-62).

Opening and parsing the file is external: the input says whether the
file was missing, held invalid JSON (with the decoder message), or
parsed to a value. The function returns the parsed value or the empty
list, together with its printed diagnostics.
-/

/-- Outcome of `open` + `json.load` on the configuration file. -/
inductive FileRead where
  | missing : FileRead
  | invalid : String → FileRead
  | ok : JSON → FileRead

/-- Translation of `read_json_file` (src/main.py lines 47-62): parsed
value passed through unchanged, empty list plus one diagnostic on a
missing file or a decode error. -/
def read_json_file (file_name : String) (f : FileRead) : JSON × List String :=
  match f with
  | .ok j => (j, [])
  | .missing => (.arr [], ["File " ++ file_name ++ " not found."])
  | .invalid e =>
    (.arr [], ["Error decoding JSON file " ++ file_name ++ ": " ++ e])

/-!
Driver (module level, src/main.py lines 177-194).
-/

/-- External collaborators of one program run. -/
structure Env where
  arc : Archive
  cfg : FileRead
  pages : String → HttpResult
  loads : String → Option JSON
  dlAudio : VideoEntry → Except String Unit
  dlVideo : VideoEntry → Except String Unit

/-- Record of one fetch dispatch performed by the driver loop. -/
structure Dispatch where
  url : JSON
  withVideo : Bool
  videos : List VideoEntry

/-- Driver's `with_video` read (src/main.py line 185):
`playlist.get('with_video', False)`. -/
def driver_with_video (p : JSON) : Except String JSON :=
  p.getD "with_video" (.bool false)

/-- One iteration of the driver loop (src/main.py lines 183-192): the
`link` subscription, the `with_video` default read, the extraction, and
the dispatch on the flag's truthiness; any exception propagates and
aborts the run. -/
def processPlaylist (env : Env) (fp : FPath) (st : FetchState) (p : JSON) :
    Except String (FetchState × Dispatch) :=
  match pyIndex p "link" with
  | .error e => .error e
  | .ok url =>
    match driver_with_video p with
    | .error e => .error e
    | .ok wv =>
      match extract_playlist_links env.loads (env.pages url.pyStr) with
      | .error e => .error e
      | .ok videos =>
        if wv.truthy then
          .ok (download_video env.dlVideo videos fp "videos" st, ⟨url, true, videos⟩)
        else
          .ok (download_audio env.dlAudio videos fp "music" st, ⟨url, false, videos⟩)

/-- Driver loop over the configured playlists, collecting the dispatch
records in order. -/
def processAll (env : Env) (fp : FPath) :
    List JSON → FetchState → Except String (FetchState × List Dispatch)
  | [], st => .ok (st, [])
  | p :: ps, st =>
    match processPlaylist env fp st p with
    | .error e => .error e
    | .ok (st1, d) =>
      match processAll env fp ps st1 with
      | .error e => .error e
      | .ok (st2, ds) => .ok (st2, d :: ds)

/-- Observable outcome of a run: provisioning world, whether the
configuration was read, the processing outcome (uncaught exceptions in
the error), and whether the provisioning-failure notice was printed. -/
structure RunTrace where
  world : World
  configRead : Bool
  outcome : Except String (FetchState × List Dispatch)
  failNotice : Bool

/-- Translation of the module-level driver (src/main.py lines 177-194):
provision the binary under `ffmpeg_bin`; on failure print the notice and
stop; on success read `playlists.json` and loop over its entries. -/
def runDriver (env : Env) (w0 : World) (st0 : FetchState) : RunTrace :=
  match download_ffmpeg env.arc "ffmpeg_bin" w0 with
  | (none, w1) => ⟨w1, false, .ok (st0, []), true⟩
  | (some fp, w1) =>
    match pyIter (read_json_file "playlists.json" env.cfg).1 with
    | .error e => ⟨w1, true, .error e, false⟩
    | .ok ps => ⟨w1, true, processAll env fp ps st0, false⟩

/-- Well-formed playlist descriptor per the claims: a dict holding the
required `link` key. -/
def WFDesc : JSON → Bool
  | .obj kvs => (kvs.lookup "link").isSome
  | _ => false

/-- Dispatch a well-formed descriptor should produce, written from the
specification: its link, the truthiness of its `with_video` field
(defaulting to false), and the extractor's entries for its page. -/
def specDispatchOf (env : Env) (p : JSON) : Dispatch :=
  ⟨lookupOr p "link" .null,
   (lookupOr p "with_video" (.bool false)).truthy,
   exOk (extract_playlist_links env.loads (env.pages (lookupOr p "link" .null).pyStr))⟩

/-!
Helper lemmas.
-/

/-- Dictionary access succeeds on dict receivers and agrees with the
total access. -/
theorem getD_of_isObjB (j : JSON) (k : String) (d : JSON) (h : isObjB j = true) :
    JSON.getD j k d = .ok (lookupOr j k d) := by
  cases j <;> simp_all [isObjB, JSON.getD, lookupOr]

/-- Unpacking of one `wfField` layer: the receiver is a dict and the
accessed value (stored or default) satisfies the field predicate. -/
theorem wfField_split (j : JSON) (k : String) (ok : JSON → Bool) (d : JSON)
    (hd : ok d = true) (h : wfField j k ok = true) :
    isObjB j = true ∧ ok (lookupOr j k d) = true := by
  cases j with
  | obj kvs =>
    refine ⟨rfl, ?_⟩
    have h' : (match kvs.lookup k with | none => true | some v => ok v) = true := h
    show ok ((kvs.lookup k).getD d) = true
    cases hl : kvs.lookup k with
    | none => rw [hl] at h'; simpa using hd
    | some v => rw [hl] at h'; simpa using h'
  | null => simp [wfField] at h
  | bool b => simp [wfField] at h
  | num n => simp [wfField] at h
  | str s => simp [wfField] at h
  | arr xs => simp [wfField] at h

/-- On a well-formed record the source item loop computes exactly the
specification-side entry. -/
theorem processItem_wf (item : JSON) (h : WFItem item = true) :
    processItem item = .ok (specEntry item) := by
  unfold WFItem at h
  obtain ⟨hObj, hP⟩ :=
    wfField_split item "playlistPanelVideoRenderer" _ (.obj []) (by rfl) h
  rw [Bool.and_eq_true] at hP
  obtain ⟨hA, hB⟩ := hP
  have hT := wfField_split _ "title" isObjB (.obj []) rfl hA
  have hN := wfField_split _ "navigationEndpoint" _ (.obj []) (by rfl) hB
  have hW := wfField_split _ "watchEndpoint" _ (.obj []) (by rfl) hN.2
  have hV := wfField_split _ "videoId" isStrVal (.str "") rfl hW.2
  have hVs : isStrVal (itemVid item) = true := hV.2
  obtain ⟨s, hs⟩ : ∃ s, itemVid item = .str s := by
    cases hx : itemVid item <;> rw [hx] at hVs <;> simp [isStrVal] at hVs
    exact ⟨_, rfl⟩
  simp only [processItem,
    getD_of_isObjB _ "playlistPanelVideoRenderer" _ hObj,
    getD_of_isObjB _ "title" _ hT.1,
    getD_of_isObjB _ "simpleText" _ hT.2,
    getD_of_isObjB _ "navigationEndpoint" _ hN.1,
    getD_of_isObjB _ "watchEndpoint" _ hW.1,
    getD_of_isObjB _ "videoId" _ hV.1]
  have hvid : lookupOr (lookupOr (lookupOr (lookupOr item
      "playlistPanelVideoRenderer" (.obj [])) "navigationEndpoint" (.obj []))
      "watchEndpoint" (.obj [])) "videoId" (.str "") = .str s := hs
  rw [hvid]
  by_cases hse : s = "" <;>
    simp [specEntry, hs, hse, JSON.truthy, JSON.pyStr, itemTitle]

/-- On well-formed items the accumulating loop is the order-preserving
filter-map of the specification-side entry function. -/
theorem buildVideos_wf (items : List JSON) (h : ∀ item ∈ items, WFItem item = true) :
    buildVideos items = .ok (items.filterMap specEntry) := by
  induction items with
  | nil => rfl
  | cons i is ih =>
    have hi := processItem_wf i (h i (by simp))
    have hrest := ih (fun x hx => h x (by simp [hx]))
    cases hs : specEntry i with
    | none => simp [buildVideos, hi, hs, hrest, List.filterMap_cons]
    | some v => simp [buildVideos, hi, hs, hrest, List.filterMap_cons]

/-- An entry is produced exactly for the records with a non-empty
string identifier. -/
theorem specEntry_isSome (item : JSON) : (specEntry item).isSome = hasVid item := by
  unfold specEntry hasVid
  cases itemVid item with
  | str vid => by_cases h : vid = "" <;> simp [h]
  | null => rfl
  | bool b => rfl
  | num n => rfl
  | arr xs => rfl
  | obj kvs => rfl

/-- Length of the produced list is the count of records with a
non-empty identifier. -/
theorem length_filterMap_specEntry (items : List JSON) :
    (items.filterMap specEntry).length = items.countP hasVid := by
  induction items with
  | nil => rfl
  | cons i is ih =>
    have hb := specEntry_isSome i
    cases hs : specEntry i <;> rw [hs] at hb <;>
      simp_all [List.filterMap_cons, List.countP_cons]

/-!
Claim C1.
-/

/-- C1: on a well-formed embedded data blob whose navigation yields the
item records, `extract_playlist_links` returns exactly the entries of
the records with a non-empty video identifier, in source order, the
title defaulting to the placeholder text when the title field is
absent; records without an identifier contribute no entry. The result
equals the order-preserving filter-map of the per-record specification
entry, and its length is the count of records with a non-empty
identifier. -/
theorem extract_playlist_links_filters_and_orders
    (loads : String → Option JSON) (scripts : List (Option String)) (blob : String)
    (data : JSON) (items : List JSON)
    (h1 : findPlaylistData scripts = some blob)
    (h2 : loads blob = some data)
    (h3 : getPlaylistItems data = .ok items)
    (h4 : ∀ item ∈ items, WFItem item = true) :
    extract_playlist_links loads (.success scripts) = .ok (items.filterMap specEntry)
    ∧ (items.filterMap specEntry).length = items.countP hasVid := by
  refine ⟨?_, length_filterMap_specEntry items⟩
  simp only [extract_playlist_links, h1, h2, h3, buildVideos_wf items h4]

/-- First sample record: title and identifier present. -/
def itemW1 : JSON := .obj [("playlistPanelVideoRenderer", .obj
  [("title", .obj [("simpleText", .str "A")]),
   ("navigationEndpoint", .obj [("watchEndpoint", .obj [("videoId", .str "abc")])])])]

/-- Second sample record: no video identifier, so it must be dropped. -/
def itemW2 : JSON := .obj [("playlistPanelVideoRenderer", .obj
  [("title", .obj [("simpleText", .str "B")])])]

/-- Third sample record: identifier present, title absent. -/
def itemW3 : JSON := .obj [("playlistPanelVideoRenderer", .obj
  [("navigationEndpoint", .obj [("watchEndpoint", .obj [("videoId", .str "xyz")])])])]

/-- Sample item list with three records of which two have identifiers. -/
def itemsW : List JSON := [itemW1, itemW2, itemW3]

/-- Sample parsed blob holding the three records under the fixed path. -/
def dataW : JSON := .obj [("contents", .obj [("twoColumnWatchNextResults", .obj
  [("playlist", .obj [("playlist", .obj [("contents", .arr itemsW)])])])])]

/-- Sample page: one script tag whose text matches the pattern. -/
def scriptsW : List (Option String) := [some "var ytInitialData = \x7b\"k\":0\x7d;"]

/-- Sample `json.loads` mapping the captured blob to the sample data. -/
def loadsW : String → Option JSON :=
  fun s => if s = "\x7b\"k\":0\x7d" then some dataW else none

theorem extract_playlist_links_filters_and_orders_witness :
    extract_playlist_links loadsW (.success scriptsW) = .ok (itemsW.filterMap specEntry)
    ∧ (itemsW.filterMap specEntry).length = itemsW.countP hasVid :=
  extract_playlist_links_filters_and_orders loadsW scriptsW "\x7b\"k\":0\x7d"
    dataW itemsW rfl rfl rfl (by decide)

/-!
Claim C2.
-/

/-- When no script text contains the marker, the scan finds nothing. -/
theorem findPlaylistData_none_of_no_marker (scripts : List (Option String))
    (h : scripts.all (fun s => match s with
          | none => true
          | some t => !containsSub marker t.toList) = true) :
    findPlaylistData scripts = none := by
  induction scripts with
  | nil => rfl
  | cons s rest ih =>
    rw [List.all_cons, Bool.and_eq_true] at h
    cases s with
    | none => simpa [findPlaylistData] using ih h.2
    | some t =>
      have ht : containsSub marker t.toList = false := by
        have := h.1
        simpa using this
      show (if containsSub marker t.toList then
          match reSearch t.toList with
          | some b => some (String.mk b)
          | none => findPlaylistData rest
        else findPlaylistData rest) = none
      rw [ht]
      simpa using ih h.2

/-- A missing key anywhere on the fixed navigation path collapses the
navigation to the empty item list. -/
theorem getPlaylistItems_empty_of_pathMissing (data : JSON)
    (h : pathMissing data navKeys = true) :
    getPlaylistItems data = .ok [] := by
  cases data with
  | obj kvs =>
    have h0 : (match kvs.lookup "contents" with
        | none => true
        | some v => pathMissing v ("twoColumnWatchNextResults" ::
            ["playlist", "playlist", "contents"]) ) = true := h
    cases h1 : kvs.lookup "contents" with
    | none => simp [getPlaylistItems, JSON.getD, h1, pyIter]
    | some v1 =>
      rw [h1] at h0
      cases v1 with
      | obj kvs1 =>
        have h0b : (match kvs1.lookup "twoColumnWatchNextResults" with
            | none => true
            | some v => pathMissing v ["playlist", "playlist", "contents"]) = true := h0
        cases h2 : kvs1.lookup "twoColumnWatchNextResults" with
        | none => simp [getPlaylistItems, JSON.getD, h1, h2, pyIter]
        | some v2 =>
          rw [h2] at h0b
          cases v2 with
          | obj kvs2 =>
            have h0c : (match kvs2.lookup "playlist" with
                | none => true
                | some v => pathMissing v ["playlist", "contents"]) = true := h0b
            cases h3 : kvs2.lookup "playlist" with
            | none => simp [getPlaylistItems, JSON.getD, h1, h2, h3, pyIter]
            | some v3 =>
              rw [h3] at h0c
              cases v3 with
              | obj kvs3 =>
                have h0d : (match kvs3.lookup "playlist" with
                    | none => true
                    | some v => pathMissing v ["contents"]) = true := h0c
                cases h4 : kvs3.lookup "playlist" with
                | none => simp [getPlaylistItems, JSON.getD, h1, h2, h3, h4, pyIter]
                | some v4 =>
                  rw [h4] at h0d
                  cases v4 with
                  | obj kvs4 =>
                    have h0e : (match kvs4.lookup "contents" with
                        | none => true
                        | some v => pathMissing v []) = true := h0d
                    cases h5 : kvs4.lookup "contents" with
                    | none => simp [getPlaylistItems, JSON.getD, h1, h2, h3, h4, h5, pyIter]
                    | some v5 =>
                      rw [h5] at h0e
                      simp [pathMissing] at h0e
                  | null => simp [pathMissing] at h0d
                  | bool b => simp [pathMissing] at h0d
                  | num n => simp [pathMissing] at h0d
                  | str s => simp [pathMissing] at h0d
                  | arr a => simp [pathMissing] at h0d
              | null => simp [pathMissing] at h0c
              | bool b => simp [pathMissing] at h0c
              | num n => simp [pathMissing] at h0c
              | str s => simp [pathMissing] at h0c
              | arr a => simp [pathMissing] at h0c
          | null => simp [pathMissing] at h0b
          | bool b => simp [pathMissing] at h0b
          | num n => simp [pathMissing] at h0b
          | str s => simp [pathMissing] at h0b
          | arr a => simp [pathMissing] at h0b
      | null => simp [pathMissing] at h0
      | bool b => simp [pathMissing] at h0
      | num n => simp [pathMissing] at h0
      | str s => simp [pathMissing] at h0
      | arr a => simp [pathMissing] at h0
  | null => simp [pathMissing, navKeys] at h
  | bool b => simp [pathMissing, navKeys] at h
  | num n => simp [pathMissing, navKeys] at h
  | str s => simp [pathMissing, navKeys] at h
  | arr a => simp [pathMissing, navKeys] at h

/-- C2: the extractor returns the empty list and raises nothing when
the fetch fails, when no script text contains the marker, when the
captured blob fails to decode, or when some key of the fixed navigation
path is missing from the decoded data. -/
theorem extract_playlist_links_safe_empty
    (loads : String → Option JSON) (scripts : List (Option String))
    (blob : String) (data : JSON) :
    extract_playlist_links loads .failure = .ok []
    ∧ (scripts.all (fun s => match s with
          | none => true
          | some t => !containsSub marker t.toList) = true →
        extract_playlist_links loads (.success scripts) = .ok [])
    ∧ (findPlaylistData scripts = some blob → loads blob = none →
        extract_playlist_links loads (.success scripts) = .ok [])
    ∧ (findPlaylistData scripts = some blob → loads blob = some data →
        pathMissing data navKeys = true →
        extract_playlist_links loads (.success scripts) = .ok []) := by
  refine ⟨rfl, ?_, ?_, ?_⟩
  · intro h
    simp only [extract_playlist_links, findPlaylistData_none_of_no_marker scripts h]
  · intro hf hl
    simp only [extract_playlist_links, hf, hl]
  · intro hf hl hm
    simp only [extract_playlist_links, hf, hl,
      getPlaylistItems_empty_of_pathMissing data hm, buildVideos]

/-- Sample `json.loads` that always fails to decode. -/
def loadsNone : String → Option JSON := fun _ => none

/-- Sample scripts none of which contains the marker. -/
def scriptsNoMarker : List (Option String) := [some "hello world", none]

/-- Sample script whose blob will fail to decode. -/
def scriptsBad : List (Option String) := [some "var ytInitialData = \x7bbad\x7d;"]

/-- Sample decoded data missing the second navigation key. -/
def dataMissing : JSON := .obj [("contents", .obj [])]

/-- Sample `json.loads` decoding everything to `dataMissing`. -/
def loadsMissing : String → Option JSON := fun _ => some dataMissing

theorem extract_playlist_links_safe_empty_witness :
    extract_playlist_links loadsNone .failure = .ok []
    ∧ extract_playlist_links loadsNone (.success scriptsNoMarker) = .ok []
    ∧ extract_playlist_links loadsNone (.success scriptsBad) = .ok []
    ∧ extract_playlist_links loadsMissing (.success scriptsBad) = .ok [] :=
  ⟨(extract_playlist_links_safe_empty loadsNone [] "" .null).1,
   (extract_playlist_links_safe_empty loadsNone scriptsNoMarker "" .null).2.1 (by decide),
   (extract_playlist_links_safe_empty loadsNone scriptsBad "\x7bbad\x7d" .null).2.2.1 rfl rfl,
   (extract_playlist_links_safe_empty loadsMissing scriptsBad "\x7bbad\x7d"
      dataMissing).2.2.2 rfl rfl rfl⟩

/-!
Claim C3.
-/

/-- Script containing the marker on which the pattern fails (the group
is never closed by the terminator). -/
def s1C3 : String := "var ytInitialData = \x7b no close"

/-- Later script containing the marker on which the pattern matches. -/
def s2C3 : String := "var ytInitialData = \x7b\"a\":1\x7d;"

/-- Decoded data for the second script's blob: one record. -/
def dataC3 : JSON := .obj [("contents", .obj [("twoColumnWatchNextResults", .obj
  [("playlist", .obj [("playlist", .obj [("contents", .arr
    [.obj [("playlistPanelVideoRenderer", .obj
      [("title", .obj [("simpleText", .str "T")]),
       ("navigationEndpoint", .obj [("watchEndpoint", .obj
         [("videoId", .str "abc")])])])]])])])])])]

/-- Sample `json.loads` decoding the second script's blob. -/
def loadsC3 : String → Option JSON :=
  fun s => if s = "\x7b\"a\":1\x7d" then some dataC3 else none

/-- C3 counterexample: the first marker-containing script fails the
pattern, yet the extractor does not return the empty sequence — it
falls back to the blob of a later script and produces its entry. -/
theorem extract_fallback_counterexample :
    containsSub marker s1C3.toList = true
    ∧ reSearch s1C3.toList = none
    ∧ extract_playlist_links loadsC3 (.success [some s1C3, some s2C3]) =
        .ok [⟨.str "T", "https://www.youtube.com/watch?v=abc"⟩]
    ∧ extract_playlist_links loadsC3 (.success [some s1C3, some s2C3]) ≠ .ok [] := by
  refine ⟨rfl, rfl, rfl, fun h => ?_⟩
  rw [show extract_playlist_links loadsC3 (.success [some s1C3, some s2C3]) =
      .ok [⟨.str "T", "https://www.youtube.com/watch?v=abc"⟩] from rfl] at h
  exact List.cons_ne_nil _ _ (Except.ok.inj h)

/-- Scan result as a first-match over per-script blobs. -/
theorem findPlaylistData_eq_head (scripts : List (Option String)) :
    findPlaylistData scripts = (scripts.filterMap scriptBlob).head? := by
  induction scripts with
  | nil => rfl
  | cons s rest ih =>
    cases s with
    | none =>
      simp only [findPlaylistData, scriptBlob, List.filterMap_cons]
      exact ih
    | some t =>
      simp only [findPlaylistData, scriptBlob, List.filterMap_cons]
      cases hc : containsSub marker t.toList with
      | false =>
        simp only [hc, Bool.false_eq_true, if_false]
        exact ih
      | true =>
        simp only [hc, if_true]
        cases hr : reSearch t.toList with
        | none =>
          simp only [hr]
          exact ih
        | some b =>
          simp only [hr]
          rfl

/-- C3 amended: the blob is taken from the first script whose text
contains the marker and on which the pattern also matches; a script
containing the marker whose pattern match fails is skipped in favour of
later scripts; when no script yields a match the extractor returns the
empty sequence. -/
theorem findPlaylistData_first_match_amended
    (loads : String → Option JSON) (scripts : List (Option String)) :
    findPlaylistData scripts = (scripts.filterMap scriptBlob).head?
    ∧ (scripts.filterMap scriptBlob = [] →
        extract_playlist_links loads (.success scripts) = .ok []) := by
  refine ⟨findPlaylistData_eq_head scripts, fun h => ?_⟩
  simp only [extract_playlist_links, findPlaylistData_eq_head scripts, h,
    List.head?_nil]

theorem findPlaylistData_first_match_amended_witness :
    findPlaylistData [some s1C3] = ([some s1C3].filterMap scriptBlob).head?
    ∧ extract_playlist_links loadsC3 (.success [some s1C3]) = .ok [] :=
  ⟨(findPlaylistData_first_match_amended loadsC3 [some s1C3]).1,
   (findPlaylistData_first_match_amended loadsC3 [some s1C3]).2 rfl⟩

/-!
Claim C4.
-/

/-- Archive whose executable sits in a subdirectory, as the real
release zip does. -/
def arcC4 : Archive := ⟨[["sub", "ffmpeg.exe"]]⟩

/-- Pristine world: no files, no network calls yet. -/
def w00 : World := ⟨[], 0⟩

/-- C4 counterexample: with the archive placing the executable in a
subdirectory, the first call succeeds (returning the subdirectory), yet
the second call performs another network fetch — the fast-path check
looks only at the top-level `ffmpeg.exe`, so the call is not idempotent
after a first successful call. -/
theorem download_ffmpeg_idempotence_counterexample :
    (download_ffmpeg arcC4 "ffmpeg_bin" w00).1 = some ["ffmpeg_bin", "sub"]
    ∧ (download_ffmpeg arcC4 "ffmpeg_bin" w00).2.netCalls = 1
    ∧ (download_ffmpeg arcC4 "ffmpeg_bin"
        (download_ffmpeg arcC4 "ffmpeg_bin" w00).2).2.netCalls = 2 :=
  ⟨rfl, rfl, rfl⟩

/-- C4 amended: the call is idempotent exactly through the fast path —
when the file `targetDir/ffmpeg.exe` exists (the one location the fast
path checks), the call returns `targetDir` at once without touching the
state, so a second call performs zero network accesses and returns the
same directory; after a first successful call this holds only if the
archive placed `ffmpeg.exe` at the top level of `targetDir`. -/
theorem download_ffmpeg_fastpath_idempotent (arc : Archive) (folder : String)
    (w : World) (h : ([folder, "ffmpeg.exe"] : FPath) ∈ w.files) :
    download_ffmpeg arc folder w = (some [folder], w)
    ∧ download_ffmpeg arc folder (download_ffmpeg arc folder w).2 = (some [folder], w)
    ∧ (download_ffmpeg arc folder (download_ffmpeg arc folder w).2).2.netCalls
        = w.netCalls := by
  have h1 : download_ffmpeg arc folder w = (some [folder], w) := by
    unfold download_ffmpeg
    simp [h]
  refine ⟨h1, ?_, ?_⟩
  · rw [h1]
    exact h1
  · rw [h1, h1]

/-- World already holding the executable at the fast-path location. -/
def wFast : World := ⟨[["ffmpeg_bin", "ffmpeg.exe"]], 5⟩

theorem download_ffmpeg_fastpath_idempotent_witness :
    download_ffmpeg arcC4 "ffmpeg_bin" wFast = (some ["ffmpeg_bin"], wFast)
    ∧ download_ffmpeg arcC4 "ffmpeg_bin"
        (download_ffmpeg arcC4 "ffmpeg_bin" wFast).2 = (some ["ffmpeg_bin"], wFast)
    ∧ (download_ffmpeg arcC4 "ffmpeg_bin"
        (download_ffmpeg arcC4 "ffmpeg_bin" wFast).2).2.netCalls = wFast.netCalls :=
  download_ffmpeg_fastpath_idempotent arcC4 "ffmpeg_bin" wFast (by decide)

/-!
Claim C5 (with claim C10 sharing the `mkdirStep` frame lemmas).
-/

/-- Directory creation does not touch the log. -/
theorem mkdirStep_log (f : String) (st : FetchState) :
    (mkdirStep f st).log = st.log := by
  unfold mkdirStep; split <;> rfl

/-- Directory creation does not touch the invocation record. -/
theorem mkdirStep_calls (f : String) (st : FetchState) :
    (mkdirStep f st).calls = st.calls := by
  unfold mkdirStep; split <;> rfl

/-- Directory creation does not touch the completion record. -/
theorem mkdirStep_completed (f : String) (st : FetchState) :
    (mkdirStep f st).completed = st.completed := by
  unfold mkdirStep; split <;> rfl

/-- Directory creation makes the directory exist. -/
theorem mkdirStep_mem (f : String) (st : FetchState) : f ∈ (mkdirStep f st).dirs := by
  unfold mkdirStep
  split
  · assumption
  · simp

/-- Every entry of the loop is attempted, in order. -/
theorem foldl_stepFetch_calls (kind : String) (dl : VideoEntry → Except String Unit)
    (videos : List VideoEntry) :
    ∀ st : FetchState,
      (videos.foldl (stepFetch kind dl) st).calls = st.calls ++ videos := by
  induction videos with
  | nil => intro st; simp
  | cons v vs ih =>
    intro st
    rw [List.foldl_cons, ih]
    cases hd : dl v <;> simp [stepFetch, hd]

/-- The completed entries are exactly those whose download succeeds. -/
theorem foldl_stepFetch_completed (kind : String) (dl : VideoEntry → Except String Unit)
    (videos : List VideoEntry) :
    ∀ st : FetchState,
      (videos.foldl (stepFetch kind dl) st).completed
        = st.completed ++ videos.filter (fun v => exIsOk (dl v)) := by
  induction videos with
  | nil => intro st; simp
  | cons v vs ih =>
    intro st
    rw [List.foldl_cons, ih]
    cases hd : dl v <;> simp [stepFetch, hd, exIsOk, List.filter_cons]

/-- The loop only appends to the log. -/
theorem foldl_stepFetch_log_mono (kind : String) (dl : VideoEntry → Except String Unit)
    (videos : List VideoEntry) :
    ∀ (st : FetchState) (l : String), l ∈ st.log →
      l ∈ (videos.foldl (stepFetch kind dl) st).log := by
  induction videos with
  | nil => intro st l hl; simpa using hl
  | cons v vs ih =>
    intro st l hl
    rw [List.foldl_cons]
    refine ih _ l ?_
    cases hd : dl v <;> simp [stepFetch, hd] <;> tauto

/-- A failing entry leaves its error line, tagged with its title, in the
log, and the loop continues past it. -/
theorem foldl_stepFetch_err_logged (kind : String) (dl : VideoEntry → Except String Unit)
    (videos : List VideoEntry) :
    ∀ (st : FetchState) (v : VideoEntry) (e : String), v ∈ videos → dl v = .error e →
      ("Error downloading " ++ kind ++ " " ++ v.title.pyStr ++ ": " ++ e)
        ∈ (videos.foldl (stepFetch kind dl) st).log := by
  induction videos with
  | nil => intro st v e hv; exact absurd hv (List.not_mem_nil v)
  | cons w ws ih =>
    intro st v e hv hd
    rw [List.foldl_cons]
    rcases List.mem_cons.mp hv with hv1 | hv2
    · subst hv1
      refine foldl_stepFetch_log_mono kind dl ws _ _ ?_
      simp [stepFetch, hd]
    · exact ih _ v e hv2 hd

/-- C5: both fetch functions process the entries strictly sequentially
with per-item isolation — every entry is attempted in order, the
completed entries are exactly those whose external download succeeds,
and a failing entry's error is logged with that entry's title while the
remaining entries are still attempted. -/
theorem download_media_per_item_isolation
    (dlA dlV : VideoEntry → Except String Unit) (videos : List VideoEntry)
    (fp : FPath) (folderA folderV : String) (st : FetchState) :
    ((download_audio dlA videos fp folderA st).calls = st.calls ++ videos
     ∧ (download_audio dlA videos fp folderA st).completed
         = st.completed ++ videos.filter (fun v => exIsOk (dlA v))
     ∧ (∀ v e, v ∈ videos → dlA v = .error e →
         ("Error downloading audio " ++ v.title.pyStr ++ ": " ++ e)
           ∈ (download_audio dlA videos fp folderA st).log))
    ∧ ((download_video dlV videos fp folderV st).calls = st.calls ++ videos
     ∧ (download_video dlV videos fp folderV st).completed
         = st.completed ++ videos.filter (fun v => exIsOk (dlV v))
     ∧ (∀ v e, v ∈ videos → dlV v = .error e →
         ("Error downloading video " ++ v.title.pyStr ++ ": " ++ e)
           ∈ (download_video dlV videos fp folderV st).log)) := by
  refine ⟨⟨?_, ?_, ?_⟩, ⟨?_, ?_, ?_⟩⟩
  · rw [download_audio, foldl_stepFetch_calls, mkdirStep_calls]
  · rw [download_audio, foldl_stepFetch_completed, mkdirStep_completed]
  · intro v e hv hd
    exact foldl_stepFetch_err_logged "audio" dlA videos _ v e hv hd
  · rw [download_video, foldl_stepFetch_calls, mkdirStep_calls]
  · rw [download_video, foldl_stepFetch_completed, mkdirStep_completed]
  · intro v e hv hd
    exact foldl_stepFetch_err_logged "video" dlV videos _ v e hv hd

/-- First sample entry. -/
def vW1 : VideoEntry := ⟨.str "A", "L1"⟩

/-- Second sample entry, the one whose download fails. -/
def vW2 : VideoEntry := ⟨.str "B", "L2"⟩

/-- Third sample entry. -/
def vW3 : VideoEntry := ⟨.str "C", "L3"⟩

/-- Sample downloader raising on the second entry only. -/
def dlW : VideoEntry → Except String Unit :=
  fun v => if v.link = "L2" then .error "boom" else .ok ()

/-- Empty fetch state. -/
def st00 : FetchState := ⟨[], [], [], []⟩

theorem download_media_per_item_isolation_witness :
    (download_audio dlW [vW1, vW2, vW3] [] "music" st00).calls = [vW1, vW2, vW3]
    ∧ (download_audio dlW [vW1, vW2, vW3] [] "music" st00).completed = [vW1, vW3]
    ∧ "Error downloading audio B: boom"
        ∈ (download_audio dlW [vW1, vW2, vW3] [] "music" st00).log
    ∧ (download_video dlW [vW1, vW2, vW3] [] "videos" st00).completed = [vW1, vW3] := by
  have h := download_media_per_item_isolation dlW dlW [vW1, vW2, vW3] [] "music" "videos" st00
  exact ⟨h.1.1.trans rfl, h.1.2.1.trans rfl,
    h.1.2.2 vW2 "boom" (by simp) rfl, h.2.2.1.trans rfl⟩

/-!
Claim C10.
-/

/-- C10: a fetch over zero entries is not a pure no-op — each fetch
function first ensures its output directory exists, so the call equals
exactly the directory-creation step: the directory is present
afterwards while the log, the invocation record and the completion
record are untouched. -/
theorem download_media_empty_creates_dir
    (dlA dlV : VideoEntry → Except String Unit) (fp : FPath) (st : FetchState) :
    download_audio dlA [] fp "music" st = mkdirStep "music" st
    ∧ "music" ∈ (download_audio dlA [] fp "music" st).dirs
    ∧ (download_audio dlA [] fp "music" st).log = st.log
    ∧ (download_audio dlA [] fp "music" st).calls = st.calls
    ∧ (download_audio dlA [] fp "music" st).completed = st.completed
    ∧ download_video dlV [] fp "videos" st = mkdirStep "videos" st
    ∧ "videos" ∈ (download_video dlV [] fp "videos" st).dirs
    ∧ (download_video dlV [] fp "videos" st).log = st.log
    ∧ (download_video dlV [] fp "videos" st).calls = st.calls
    ∧ (download_video dlV [] fp "videos" st).completed = st.completed :=
  ⟨rfl, mkdirStep_mem "music" st, mkdirStep_log "music" st,
   mkdirStep_calls "music" st, mkdirStep_completed "music" st,
   rfl, mkdirStep_mem "videos" st, mkdirStep_log "videos" st,
   mkdirStep_calls "videos" st, mkdirStep_completed "videos" st⟩

/-!
Claims C6 and C7.
-/

/-- C6: on a valid JSON array the reader returns the parsed array
unchanged (hence same length, same order, and each element passed
through as is), and the driver's flag read defaults to false for a
descriptor without the `with_video` field. -/
theorem read_json_file_preserves_array (file_name : String) (xs : List JSON)
    (kvs : List (String × JSON)) (h : kvs.lookup "with_video" = none) :
    read_json_file file_name (.ok (.arr xs)) = (.arr xs, [])
    ∧ (read_json_file file_name (.ok (.arr xs))).1 = .arr xs
    ∧ driver_with_video (.obj kvs) = .ok (.bool false) := by
  refine ⟨rfl, rfl, ?_⟩
  simp [driver_with_video, JSON.getD, h]

/-- Sample descriptor without a `with_video` field. -/
def kvsC6 : List (String × JSON) := [("link", .str "u")]

/-- Sample configuration array. -/
def xsC6 : List JSON := [.obj kvsC6]

theorem read_json_file_preserves_array_witness :
    read_json_file "playlists.json" (.ok (.arr xsC6)) = (.arr xsC6, [])
    ∧ (read_json_file "playlists.json" (.ok (.arr xsC6))).1 = .arr xsC6
    ∧ driver_with_video (.obj kvsC6) = .ok (.bool false) :=
  read_json_file_preserves_array "playlists.json" xsC6 kvsC6 rfl

/-- C7: on a missing file and on undecodable content the reader returns
the empty list — it raises nothing, its result type is total — and
prints exactly the one diagnostic message. -/
theorem read_json_file_safe_empty (file_name e : String) :
    read_json_file file_name .missing
      = (.arr [], ["File " ++ file_name ++ " not found."])
    ∧ read_json_file file_name (.invalid e)
      = (.arr [], ["Error decoding JSON file " ++ file_name ++ ": " ++ e]) :=
  ⟨rfl, rfl⟩

/-!
Claims C8 and C9: driver lemmas.
-/

/-- A well-formed descriptor whose extraction does not raise is
processed into exactly its specification dispatch. -/
theorem processPlaylist_wf (env : Env) (fp : FPath) (st : FetchState) (p : JSON)
    (h1 : WFDesc p = true)
    (h2 : exIsOk (extract_playlist_links env.loads
        (env.pages (lookupOr p "link" .null).pyStr)) = true) :
    ∃ st2, processPlaylist env fp st p = .ok (st2, specDispatchOf env p) := by
  cases p with
  | obj kvs =>
    have h1b : (kvs.lookup "link").isSome = true := h1
    obtain ⟨u, hu⟩ := Option.isSome_iff_exists.mp h1b
    have hurl : lookupOr (.obj kvs) "link" .null = u := by
      show (kvs.lookup "link").getD .null = u
      rw [hu]
      rfl
    obtain ⟨vs, hvs⟩ : ∃ vs, extract_playlist_links env.loads
        (env.pages (lookupOr (.obj kvs) "link" .null).pyStr) = .ok vs := by
      cases hx : extract_playlist_links env.loads
          (env.pages (lookupOr (.obj kvs) "link" .null).pyStr) with
      | ok vs => exact ⟨vs, rfl⟩
      | error e => rw [hx] at h2; simp [exIsOk] at h2
    rw [hurl] at hvs
    have hwv : driver_with_video (.obj kvs)
        = .ok (lookupOr (.obj kvs) "with_video" (.bool false)) := rfl
    cases hb : (lookupOr (.obj kvs) "with_video" (.bool false)).truthy with
    | true =>
      refine ⟨download_video env.dlVideo vs fp "videos" st, ?_⟩
      simp only [processPlaylist, pyIndex, hu, hwv, hvs, hb, if_true,
        specDispatchOf, hurl, exOk]
    | false =>
      refine ⟨download_audio env.dlAudio vs fp "music" st, ?_⟩
      simp only [processPlaylist, pyIndex, hu, hwv, hvs, hb, Bool.false_eq_true,
        if_false, specDispatchOf, hurl, exOk]
  | null => simp [WFDesc] at h1
  | bool b => simp [WFDesc] at h1
  | num n => simp [WFDesc] at h1
  | str s => simp [WFDesc] at h1
  | arr a => simp [WFDesc] at h1

/-- The driver loop over well-formed descriptors with non-raising
extractions succeeds and produces the specification dispatches in
order. -/
theorem processAll_wf (env : Env) (fp : FPath) (ps : List JSON) :
    ∀ st : FetchState,
      (∀ p ∈ ps, WFDesc p = true) →
      (∀ p ∈ ps, exIsOk (extract_playlist_links env.loads
          (env.pages (lookupOr p "link" .null).pyStr)) = true) →
      ∃ stF, processAll env fp ps st = .ok (stF, ps.map (specDispatchOf env)) := by
  induction ps with
  | nil => intro st _ _; exact ⟨st, rfl⟩
  | cons p ps ih =>
    intro st h1 h2
    obtain ⟨st2, hp⟩ := processPlaylist_wf env fp st p (h1 p (by simp))
      (h2 p (by simp))
    obtain ⟨stF, hr⟩ := ih st2 (fun q hq => h1 q (by simp [hq]))
      (fun q hq => h2 q (by simp [hq]))
    refine ⟨stF, ?_⟩
    simp only [processAll, hp, hr, List.map_cons]

/-- C8: the driver performs no playlist processing at all when binary
provisioning fails — the configuration is not read, no dispatch occurs,
the fetch state is untouched and only the failure notice is emitted;
when provisioning succeeds the configuration is read and each
well-formed descriptor is processed in order, dispatched to the video
or audio fetch according to its flag (the dispatch list is exactly the
specification dispatch of each descriptor, in configuration order). -/
theorem runDriver_provision_gate (env : Env) (w0 : World) (st0 : FetchState) :
    ((download_ffmpeg env.arc "ffmpeg_bin" w0).1 = none →
      runDriver env w0 st0
        = ⟨(download_ffmpeg env.arc "ffmpeg_bin" w0).2, false, .ok (st0, []), true⟩)
    ∧ (∀ fp ps, (download_ffmpeg env.arc "ffmpeg_bin" w0).1 = some fp →
        env.cfg = .ok (.arr ps) →
        (∀ p ∈ ps, WFDesc p = true) →
        (∀ p ∈ ps, exIsOk (extract_playlist_links env.loads
            (env.pages (lookupOr p "link" .null).pyStr)) = true) →
        ∃ stF, runDriver env w0 st0
          = ⟨(download_ffmpeg env.arc "ffmpeg_bin" w0).2, true,
             .ok (stF, ps.map (specDispatchOf env)), false⟩) := by
  constructor
  · intro h
    cases hd : download_ffmpeg env.arc "ffmpeg_bin" w0 with
    | mk o w1 =>
      rw [hd] at h
      cases o with
      | some fp => exact absurd h (by simp)
      | none => simp only [runDriver, hd]
  · intro fp ps h hc h1 h2
    cases hd : download_ffmpeg env.arc "ffmpeg_bin" w0 with
    | mk o w1 =>
      rw [hd] at h
      cases o with
      | none => exact absurd h (by simp)
      | some fp2 =>
        obtain ⟨stF, hall⟩ := processAll_wf env fp2 ps st0 h1 h2
        refine ⟨stF, ?_⟩
        simp only [runDriver, hd, hc, read_json_file, pyIter, hall]

/-- Environment whose archive is empty, so provisioning fails. -/
def envFail : Env :=
  ⟨⟨[]⟩, .missing, fun _ => .failure, fun _ => none,
   fun _ => .ok (), fun _ => .ok ()⟩

/-- Sample descriptor for the success branch. -/
def descC8 : JSON := .obj [("link", .str "u")]

/-- Environment whose archive holds the executable at top level and
whose configuration holds one audio descriptor. -/
def envOk : Env :=
  ⟨⟨[["ffmpeg.exe"]]⟩, .ok (.arr [descC8]), fun _ => .failure, fun _ => none,
   fun _ => .ok (), fun _ => .ok ()⟩

theorem runDriver_provision_gate_witness :
    runDriver envFail w00 st00
      = ⟨(download_ffmpeg envFail.arc "ffmpeg_bin" w00).2, false, .ok (st00, []), true⟩
    ∧ ∃ stF, runDriver envOk w00 st00
        = ⟨(download_ffmpeg envOk.arc "ffmpeg_bin" w00).2, true,
           .ok (stF, [descC8].map (specDispatchOf envOk)), false⟩ :=
  ⟨(runDriver_provision_gate envFail w00 st00).1 rfl,
   (runDriver_provision_gate envOk w00 st00).2 ["ffmpeg_bin"] [descC8] rfl rfl
     (by decide) (by decide)⟩

/-- An error raised by the remaining descriptors propagates past a
well-formed prefix that processes cleanly. -/
theorem processAll_front_error (env : Env) (fp : FPath) (tail : List JSON) (e : String)
    (htail : ∀ st1, processAll env fp tail st1 = .error e) :
    ∀ (pre : List JSON) (st : FetchState),
      (∀ q ∈ pre, WFDesc q = true) →
      (∀ q ∈ pre, exIsOk (extract_playlist_links env.loads
          (env.pages (lookupOr q "link" .null).pyStr)) = true) →
      processAll env fp (pre ++ tail) st = .error e := by
  intro pre
  induction pre with
  | nil => intro st _ _; simpa using htail st
  | cons q qs ih =>
    intro st h1 h2
    obtain ⟨st2, hq⟩ := processPlaylist_wf env fp st q (h1 q (by simp)) (h2 q (by simp))
    have hr := ih st2 (fun x hx => h1 x (by simp [hx])) (fun x hx => h2 x (by simp [hx]))
    simp only [List.cons_append, processAll, hq, List.append_eq, hr]

/-- C9: a descriptor lacking the required `link` field passes through
the configuration reader unchanged and without any diagnostic — no
per-entry validation happens at load time — and the failure surfaces
only later, as the `KeyError` of the driver's `link` subscription when
playlist processing reaches that entry, aborting the run there. -/
theorem read_json_file_no_validation_late_failure
    (env : Env) (fp : FPath) (st : FetchState) (file_name : String)
    (kvs : List (String × JSON)) (xs : List JSON)
    (hlink : kvs.lookup "link" = none) :
    read_json_file file_name (.ok (.arr xs)) = (.arr xs, [])
    ∧ pyIndex (.obj kvs) "link" = .error "KeyError: link"
    ∧ (∀ rest, processAll env fp (.obj kvs :: rest) st = .error "KeyError: link")
    ∧ (∀ pre rest,
        (∀ q ∈ pre, WFDesc q = true) →
        (∀ q ∈ pre, exIsOk (extract_playlist_links env.loads
            (env.pages (lookupOr q "link" .null).pyStr)) = true) →
        processAll env fp (pre ++ .obj kvs :: rest) st = .error "KeyError: link")
    ∧ (∀ w0 st0 rest, (download_ffmpeg env.arc "ffmpeg_bin" w0).1.isSome = true →
        env.cfg = .ok (.arr (.obj kvs :: rest)) →
        (runDriver env w0 st0).outcome = .error "KeyError: link") := by
  have hbad : ∀ (fpv : FPath) (st1 : FetchState) (rest : List JSON),
      processAll env fpv (.obj kvs :: rest) st1 = .error "KeyError: link" := by
    intro fpv st1 rest
    simp only [processAll, processPlaylist, pyIndex, hlink]
    rfl
  refine ⟨rfl, by simp [pyIndex, hlink], fun rest => hbad fp st rest, ?_, ?_⟩
  · intro pre rest h1 h2
    exact processAll_front_error env fp (.obj kvs :: rest) "KeyError: link"
      (fun st1 => hbad fp st1 rest) pre st h1 h2
  · intro w0 st0 rest hsome hc
    cases hd : download_ffmpeg env.arc "ffmpeg_bin" w0 with
    | mk o w1 =>
      rw [hd] at hsome
      cases o with
      | none => simp at hsome
      | some fp2 =>
        simp only [runDriver, hd, hc, read_json_file, pyIter]
        exact hbad fp2 st0 rest

/-- Sample descriptor lacking the `link` field. -/
def kvsC9 : List (String × JSON) := [("with_video", .bool true)]

/-- Environment with working provisioning and the linkless descriptor
configured. -/
def envC9 : Env :=
  ⟨⟨[["ffmpeg.exe"]]⟩, .ok (.arr [.obj kvsC9]), fun _ => .failure, fun _ => none,
   fun _ => .ok (), fun _ => .ok ()⟩

theorem read_json_file_no_validation_late_failure_witness :
    read_json_file "playlists.json" (.ok (.arr [.obj kvsC9])) = (.arr [.obj kvsC9], [])
    ∧ pyIndex (.obj kvsC9) "link" = .error "KeyError: link"
    ∧ processAll envC9 ["ffmpeg_bin"] (.obj kvsC9 :: []) st00 = .error "KeyError: link"
    ∧ (runDriver envC9 w00 st00).outcome = .error "KeyError: link" := by
  have h := read_json_file_no_validation_late_failure envC9 ["ffmpeg_bin"] st00
    "playlists.json" kvsC9 [.obj kvsC9] rfl
  exact ⟨h.1, h.2.1, h.2.2.1 [], h.2.2.2.2 w00 st00 [] (by decide) rfl⟩
